import Mathlib

/-!
Shallow embedding of `src/api/checkout.js` (clover-backend): the checkout HTTP
handler, the connectivity probe `testCloverConnection`, the retry/backoff
controller `makeRequestWithRetry`, and the coupon computation.

Times and money amounts are rationals (JS numbers); each `fetch` outcome is
supplied by a script `ℕ → FetchOutcome` indexed by attempt number, the jitter
`Math.random() * 2000` by a function `ℕ → ℚ`, and `Date.now()` by a clock that
starts at `t0` and advances by every `sleep`.
-/

namespace CloverCheckout

/-- A `Retry-After` header value as the code observes it: either a string of
digits (matched by `/^\d+$/`, value in seconds) or a parseable date string
with the given epoch-milliseconds timestamp. -/
inductive HdrVal
  | num (n : ℕ)
  | date (t : ℚ)
deriving DecidableEq

/-- The response headers the retry controller reads: `Retry-After` and
`X-RateLimit-Reset` (the latter already through `parseInt`, Unix seconds). -/
structure RespHeaders where
  retryAfter : Option HdrVal
  rateLimitReset : Option ℕ
deriving DecidableEq

/-- The parsed JSON payload of a successful gateway response; the session
call reads `result.href` and `result.checkoutSessionId`. -/
structure CheckoutData where
  href : String
  checkoutSessionId : String
deriving DecidableEq

/-- A response body: its raw text (read by `response.text()`), the parsed
JSON (`response.json()`), and, when parsing fails (`parsed = none`), the
message of the `SyntaxError` the JSON parser throws. -/
structure RespBody where
  text : String
  parsed : Option CheckoutData
  parseErrMsg : String
deriving DecidableEq

/-- Outcome of one `fetch`: an HTTP response, or a transport-level rejection
carrying the JS error's `name`, `message` and optional `code`. -/
inductive FetchOutcome
  | response (status : ℕ) (headers : RespHeaders) (body : RespBody)
  | networkError (name message : String) (code : Option String)
deriving DecidableEq

/-- `error.retryAfter` as set on the terminal 429 error:
`headers.get('Retry-After') || headers.get('X-RateLimit-Reset')`. -/
inductive RetryHint
  | header (v : HdrVal)
  | reset (n : ℕ)
deriving DecidableEq

/-- A JS `Error` as the code builds and inspects them: `name`, `message`,
optional `code`, and the ad hoc `statusCode` / `retryAfter` fields. -/
structure JsError where
  name : String
  message : String
  code : Option String
  statusCode : Option ℕ
  retryAfter : Option RetryHint
deriving DecidableEq

/-- `needle` is a prefix of the character list. -/
def listIsPref : List Char → List Char → Bool
  | [], _ => true
  | _ :: _, [] => false
  | a :: as, b :: bs => a == b && listIsPref as bs

/-- Substring occurrence on character lists. -/
def containsSub : List Char → List Char → Bool
  | [], needle => needle.isEmpty
  | c :: rest, needle => listIsPref needle (c :: rest) || containsSub rest needle

/-- JS `hay.includes(needle)`. -/
def includesStr (hay needle : String) : Bool :=
  containsSub hay.data needle.data

/-- The retry condition of the `catch` block:
`error.name === 'TypeError' || error.message.includes('fetch') || error.code === 'ECONNRESET'`. -/
def isRetryableError (e : JsError) : Bool :=
  e.name == "TypeError" || includesStr e.message "fetch" || e.code == some "ECONNRESET"

/-- The 429 wait-time computation (lines 288–306): `Retry-After` numeric →
seconds × 1000; `Retry-After` date → difference from now floored at 0; else
`X-RateLimit-Reset` (Unix seconds × 1000) minus now floored at 0; else
`baseDelay * 3^attempt` plus jitter; finally `Math.min(waitTime, 60000)`. -/
def rateLimitWait (h : RespHeaders) (now : ℚ) (attempt baseDelay : ℕ) (jitter : ℚ) : ℚ :=
  let w : ℚ :=
    match h.retryAfter with
    | some (.num n) => (n : ℚ) * 1000
    | some (.date d) => max 0 (d - now)
    | none =>
      match h.rateLimitReset with
      | some r => max 0 ((r : ℚ) * 1000 - now)
      | none => (baseDelay : ℚ) * 3 ^ attempt + jitter
  min w 60000

/-- The message of `new Error(\x7bHTTP $\x7bstatus\x7d: $\x7berrorText\x7d\x7d)`. -/
def httpErrMsg (status : ℕ) (text : String) : String :=
  "HTTP " ++ toString status ++ ": " ++ text

/-- The message of the terminal 429 error. -/
def rateLimitExceededMsg (maxRetries : ℕ) : String :=
  "Rate limit exceeded after " ++ toString (maxRetries + 1) ++ " attempts"

/-- `response.headers.get('Retry-After') || response.headers.get('X-RateLimit-Reset')`. -/
def retryAfterRaw (h : RespHeaders) : Option RetryHint :=
  match h.retryAfter with
  | some v => some (.header v)
  | none => Option.map RetryHint.reset h.rateLimitReset

/-- Outcome of the `try` block body for one attempt: return the parsed
payload, `continue` after sleeping `w` (the in-loop 429/5xx retry paths),
or an exception reaching the `catch` block. -/
inductive IterOut
  | success (d : CheckoutData)
  | retryNow (w : ℚ)
  | thrown (e : JsError)
deriving DecidableEq

/-- The `try` block of one loop iteration of `makeRequestWithRetry`
(lines 239–336), given the attempt index, the clock after the spacing sleep,
this attempt's jitter sample, and the `fetch` outcome. -/
def iterTry (maxRetries baseDelay attempt : ℕ) (now jitter : ℚ) (f : FetchOutcome) : IterOut :=
  match f with
  | .networkError name msg code => .thrown ⟨name, msg, code, none, none⟩
  | .response status hd b =>
    if 200 ≤ status ∧ status ≤ 299 then
      match b.parsed with
      | some d => .success d
      | none => .thrown ⟨"SyntaxError", b.parseErrMsg, none, none, none⟩
    else if status = 429 then
      if attempt = maxRetries then
        .thrown ⟨"Error", rateLimitExceededMsg maxRetries, none, some 429, retryAfterRaw hd⟩
      else .retryNow (rateLimitWait hd now attempt baseDelay jitter)
    else
      let e : JsError := ⟨"Error", httpErrMsg status b.text, none, some status, none⟩
      if 400 ≤ status ∧ status < 500 then .thrown e
      else if 500 ≤ status then
        if attempt = maxRetries then .thrown e
        else .retryNow ((baseDelay : ℚ) * 2 ^ attempt)
      else .thrown e

/-- Log of one executed loop iteration: the attempt index, the inter-attempt
spacing slept before the `fetch` (lines 244–246), the `fetch` outcome, and
the backoff slept before continuing (`none` when the iteration terminated). -/
structure IterLog where
  attempt : ℕ
  spacing : ℚ
  resp : FetchOutcome
  backoffWait : Option ℚ
deriving DecidableEq

deriving instance DecidableEq for Except

/-- Full trace of one `makeRequestWithRetry` invocation: the iterations
executed (one per `fetch` issued) and the terminal outcome. -/
structure RetryTrace where
  iters : List IterLog
  result : Except JsError CheckoutData
deriving DecidableEq

/-- Number of HTTP attempts issued. -/
def RetryTrace.attempts (tr : RetryTrace) : ℕ := tr.iters.length

/-- Every sleep performed, in order (spacing is 0 at attempt 0, where the
code sleeps nothing). -/
def RetryTrace.allWaits (tr : RetryTrace) : List ℚ :=
  tr.iters.flatMap fun l => l.spacing :: l.backoffWait.toList

/-- Total time slept across the invocation. -/
def RetryTrace.totalWait (tr : RetryTrace) : ℚ :=
  (tr.iters.map fun l => l.spacing + l.backoffWait.getD 0).sum

/-- The retry loop of `makeRequestWithRetry` (lines 238–358). `a` is the
attempt index, `fuel` the remaining iterations (`maxRetries + 1 - a` at the
top call), `t` the clock, `lastErr` the `lastError` variable. The `catch`
block becomes the `.thrown` case: retry with `baseDelay * 2^attempt` when the
error passes `isRetryableError` and attempts remain, otherwise rethrow. -/
def retryAux (maxRetries baseDelay : ℕ) (scr : ℕ → FetchOutcome) (js : ℕ → ℚ) :
    ℕ → ℕ → ℚ → Option JsError → RetryTrace
  | _, 0, _, lastErr =>
    ⟨[], .error (lastErr.getD ⟨"Error", "no attempt made", none, none, none⟩)⟩
  | a, fuel + 1, t, lastErr =>
    let sp : ℚ := if a = 0 then 0 else 1000
    let f := scr a
    match iterTry maxRetries baseDelay a (t + sp) (js a) f with
    | .success d => ⟨[⟨a, sp, f, none⟩], .ok d⟩
    | .retryNow w =>
      let rest := retryAux maxRetries baseDelay scr js (a + 1) fuel (t + sp + w) lastErr
      ⟨⟨a, sp, f, some w⟩ :: rest.iters, rest.result⟩
    | .thrown e =>
      if isRetryableError e ∧ a ≠ maxRetries then
        let w : ℚ := (baseDelay : ℚ) * 2 ^ a
        let rest := retryAux maxRetries baseDelay scr js (a + 1) fuel (t + sp + w) (some e)
        ⟨⟨a, sp, f, some w⟩ :: rest.iters, rest.result⟩
      else ⟨[⟨a, sp, f, none⟩], .error e⟩

/-- `makeRequestWithRetry(url, options, maxRetries = 3, baseDelay = 2000)`:
runs the loop for attempts `0..maxRetries` starting at clock `t0`. -/
def makeRequestWithRetry (scr : ℕ → FetchOutcome) (js : ℕ → ℚ)
    (maxRetries baseDelay : ℕ) (t0 : ℚ) : RetryTrace :=
  retryAux maxRetries baseDelay scr js 0 (maxRetries + 1) t0 none

/-- Result of `testCloverConnection` (lines 106–157). -/
inductive ProbeResult
  | ok (d : CheckoutData)
  | errHttp (msg : String) (statusCode : ℕ)
  | errNet (msg : String)
deriving DecidableEq

/-- `testCloverConnection`: one plain `fetch` of the merchant-info endpoint,
no retry. 2xx with JSON body → success; 2xx with a body `response.json()`
rejects → the catch returns `\x7bsuccess:false, error\x7d` with no status code;
non-2xx → failure with `HTTP <status>: <text>` and the status; transport
failure → failure with the error message. -/
def testCloverConnection (f : FetchOutcome) : ProbeResult :=
  match f with
  | .networkError _ msg _ => .errNet msg
  | .response status _ b =>
    if 200 ≤ status ∧ status ≤ 299 then
      match b.parsed with
      | some d => .ok d
      | none => .errNet b.parseErrMsg
    else .errHttp (httpErrMsg status b.text) status

/-- Result of `createHostedCheckoutSession` (lines 160–232). -/
inductive SessionResult
  | ok (checkoutUrl sessionId : String)
  | err429 (retryAfter : Option RetryHint)
  | errOther (message : String) (statusCode : ℕ)
deriving DecidableEq

/-- `createHostedCheckoutSession`: issues the session POST through
`makeRequestWithRetry` (maxRetries 3, baseDelay 2000) and translates the
outcome: success → `\x7bcheckoutUrl, sessionId\x7d`; caught error with
`statusCode === 429` → the rate-limit failure with `retryAfter`; otherwise
`\x7berror.message, error.statusCode || 500\x7d`. Also returns the attempt count. -/
def createHostedCheckoutSession (scr : ℕ → FetchOutcome) (js : ℕ → ℚ) (t0 : ℚ) :
    SessionResult × ℕ :=
  let tr := makeRequestWithRetry scr js 3 2000 t0
  (match tr.result with
   | .ok d => .ok d.href d.checkoutSessionId
   | .error e =>
     if e.statusCode = some 429 then .err429 e.retryAfter
     else .errOther e.message (e.statusCode.getD 500),
   tr.attempts)

/-- One entry of the static coupon table (lines 51–55). -/
structure Coupon where
  code : String
  value : ℚ
  active : Bool
deriving DecidableEq

/-- The coupon table. -/
def coupons : List Coupon :=
  [⟨"SAVE10", 10, true⟩, ⟨"SAVE20", 20, true⟩, ⟨"SAVE50", 50, true⟩]

/-- JS `Math.round` for the nonnegative arguments the handler produces:
round half up. -/
def jsRound (q : ℚ) : ℚ := (⌊q + 1 / 2⌋ : ℚ)

/-- The coupon lookup and discount computation (lines 57–66): `if (coupon)`
(JS truthiness: absent or empty string skips), `coupons.find(c => c.code ===
coupon && c.active)`, `discountAmount = Math.round(amount * value / 100)`. -/
def couponCalc (amount : ℚ) (coupon : Option String) : ℚ × Option Coupon :=
  match coupon with
  | none => (0, none)
  | some c =>
    if c = "" then (0, none)
    else
      match coupons.find? (fun k => k.code == c && k.active) with
      | some fc => (jsRound (amount * fc.value / 100), some fc)
      | none => (0, none)

/-- `!amount || amount <= 0` on the optional request amount. -/
def amountInvalid : Option ℚ → Bool
  | none => true
  | some a => decide (a ≤ 0)

/-- The JSON body of the handler's response, one constructor per shape the
handler produces. -/
inductive HandlerBody
  | emptyOk
  | methodNotAllowed
  | configError
  | invalidAmount
  | connectionFailed (details : String) (statusCode : Option ℕ)
  | paymentFailed (details : String) (retryAfter : Option RetryHint)
  | success (checkoutUrl : String) (originalAmount discountAmount finalAmount : ℚ)
      (couponApplied : Option String) (sessionId : String)
deriving DecidableEq

/-- The handler's observable output: HTTP status, JSON body, and the number
of outbound gateway `fetch` calls issued (probe plus session attempts). -/
structure HandlerOutput where
  status : ℕ
  body : HandlerBody
  gatewayCalls : ℕ
deriving DecidableEq

/-- The handler's inputs: request method and body, truthiness of the two
environment credentials, the probe's `fetch` outcome, the session call's
response script and jitter samples, and the starting clock. -/
structure HandlerInput where
  method : String
  hasAuthToken : Bool
  hasMerchantId : Bool
  amount : Option ℚ
  coupon : Option String
  probeResp : FetchOutcome
  sessionScript : ℕ → FetchOutcome
  jitters : ℕ → ℚ
  t0 : ℚ

/-- The handler (lines 1–103): OPTIONS → 200; non-POST → 405; missing
credentials → 500 config error; invalid amount → 400, no gateway call;
probe failure → 500 with its details and status code; then coupon math,
`finalAmount = Math.max(0, amount - discountAmount)`, the session call, and
on failure `res.status(statusCode || 500)` with details and `retryAfter`. -/
def handler (inp : HandlerInput) : HandlerOutput :=
  if inp.method = "OPTIONS" then ⟨200, .emptyOk, 0⟩
  else if inp.method ≠ "POST" then ⟨405, .methodNotAllowed, 0⟩
  else if ¬(inp.hasAuthToken ∧ inp.hasMerchantId) then ⟨500, .configError, 0⟩
  else if amountInvalid inp.amount then ⟨400, .invalidAmount, 0⟩
  else
    let a := inp.amount.getD 0
    match testCloverConnection inp.probeResp with
    | .errHttp msg status => ⟨500, .connectionFailed msg (some status), 1⟩
    | .errNet msg => ⟨500, .connectionFailed msg none, 1⟩
    | .ok _ =>
      let dc := couponCalc a inp.coupon
      let finalAmount := max 0 (a - dc.1)
      match createHostedCheckoutSession inp.sessionScript inp.jitters inp.t0 with
      | (.ok url sid, n) =>
        ⟨200, .success url a dc.1 finalAmount (dc.2.map Coupon.code) sid, 1 + n⟩
      | (.err429 hint, n) =>
        ⟨429, .paymentFailed "Rate limit exceeded. Please try again later." hint, 1 + n⟩
      | (.errOther msg st, n) => ⟨st, .paymentFailed msg none, 1 + n⟩

/-- Modelled from the spec: the Request Serializer/Queue of §4.2 is not in
`src/` (only the spec describes it). A task occupies the single concurrency
slot for `duration` time units and resolves (`ok = true`) or rejects. -/
structure QueueTask where
  duration : ℚ
  ok : Bool
deriving DecidableEq

/-- Modelled from the spec: one executed queue task — its enqueue index, the
time its call was issued, the time it settled, and whether it resolved. -/
structure QueueRun where
  index : ℕ
  start : ℚ
  finish : ℚ
  ok : Bool
deriving DecidableEq

/-- Modelled from the spec: the dequeue loop of §4.2 with capacity 1 —
dequeue the head, wait out the remainder of the minimum interval since the
previous issue time, mark the issue time, run the task, and on settlement
(success or failure alike) proceed to the next task. -/
def runQueueAux (minInterval : ℚ) : List QueueTask → ℕ → ℚ → Option ℚ → List QueueRun
  | [], _, _, _ => []
  | tk :: rest, i, now, lastIssue =>
    let start :=
      match lastIssue with
      | none => now
      | some li => max now (li + minInterval)
    let finish := start + tk.duration
    ⟨i, start, finish, tk.ok⟩ :: runQueueAux minInterval rest (i + 1) finish (some start)

/-- Modelled from the spec: run the whole backlog from time `t0`. -/
def runQueue (minInterval t0 : ℚ) (tasks : List QueueTask) : List QueueRun :=
  runQueueAux minInterval tasks 0 t0 none

/-! Concrete response fixtures used by the witnesses and counterexamples. -/

/-- No rate-limit headers. -/
def noHdr : RespHeaders := ⟨none, none⟩

/-- Merchant-info payload for a successful probe. -/
def probeData : CheckoutData := ⟨"", ""⟩

/-- Session payload for a successful checkout-session call. -/
def sessData : CheckoutData := ⟨"https://checkout.example/pay", "sess123"⟩

/-- A body that parses as JSON to `d`. -/
def okBody (d : CheckoutData) : RespBody := ⟨"", some d, ""⟩

/-- 200 response for the probe. -/
def respOkProbe : FetchOutcome := .response 200 noHdr (okBody probeData)

/-- 200 response for the session call. -/
def respOkSess : FetchOutcome := .response 200 noHdr (okBody sessData)

/-- Plain 500 response. -/
def resp500 : FetchOutcome := .response 500 noHdr ⟨"Internal Server Error", none, ""⟩

/-- Plain 404 response. -/
def resp404 : FetchOutcome := .response 404 noHdr ⟨"Not Found", none, ""⟩

/-- 404 response whose body text contains the substring `fetch`. -/
def resp404fetch : FetchOutcome :=
  .response 404 noHdr ⟨"could not fetch resource", none, ""⟩

/-- 429 response carrying `Retry-After: 60`. -/
def resp429RA60 : FetchOutcome :=
  .response 429 ⟨some (.num 60), none⟩ ⟨"rate limited", none, ""⟩

/-- A POST request with amount 100, no coupon, working credentials, a
succeeding probe and a succeeding session call. -/
def baseInput : HandlerInput :=
  ⟨"POST", true, true, some 100, none, respOkProbe, fun _ => respOkSess, fun _ => 0, 0⟩

/-- The response script that fails with 429 (`Retry-After: 60`) on the first
three attempts and then succeeds. -/
def scr429x3 : ℕ → FetchOutcome := fun n => if n < 3 then resp429RA60 else respOkSess

/-- The response script that fails with 500 on the first attempt and then
succeeds. -/
def scr500then200 : ℕ → FetchOutcome := fun n => if n = 0 then resp500 else respOkSess

/-- A transport-level failure as Node's `fetch` rejects it. -/
def netErr : FetchOutcome := .networkError "TypeError" "fetch failed" none

/-- The response script with a network error on the first attempt and then
success. -/
def scrNetThenOk : ℕ → FetchOutcome := fun n => if n = 0 then netErr else respOkSess

/-- A 2xx body that is not valid JSON; `response.json()` rejects with this
message. -/
def badJsonBody : RespBody := ⟨"<html>oops</html>", none, "Unexpected end of JSON input"⟩

/-- 429 response carrying `Retry-After: 5`. -/
def resp429RA5 : FetchOutcome :=
  .response 429 ⟨some (.num 5), none⟩ ⟨"rate limited", none, ""⟩

/-- `baseInput` with the given amount and coupon. -/
def goodInput (a : ℚ) (c : Option String) : HandlerInput :=
  { baseInput with amount := some a, coupon := c }

/-- The loop executes at most `fuel` iterations. -/
theorem retryAux_length_le (mr bd : ℕ) (scr : ℕ → FetchOutcome) (js : ℕ → ℚ) :
    ∀ (fuel a : ℕ) (t : ℚ) (e : Option JsError),
      (retryAux mr bd scr js a fuel t e).iters.length ≤ fuel := by
  intro fuel
  induction fuel with
  | zero => intro a t e; simp [retryAux]
  | succ n ih =>
    intro a t e
    simp only [retryAux]
    split
    · simp
    · simpa using ih _ _ _
    · split
      · simpa using ih _ _ _
      · simp

/-- Claim C1: for every sequence of gateway responses the retry controller
issues at most `maxRetries + 1` HTTP attempts (it always returns exactly one
terminal result, being a total function into `RetryTrace`); in particular,
with `maxRetries = 3` and every attempt answered with HTTP 500, exactly 4
attempts occur and the terminal outcome is the thrown server-error failure
carrying the last attempt's status code 500. -/
theorem retry_attempts_bounded_and_all_500_terminal :
    (∀ (maxRetries baseDelay : ℕ) (scr : ℕ → FetchOutcome) (js : ℕ → ℚ) (t0 : ℚ),
      (makeRequestWithRetry scr js maxRetries baseDelay t0).attempts ≤ maxRetries + 1) ∧
    (makeRequestWithRetry (fun _ => resp500) (fun _ => 0) 3 2000 0).attempts = 4 ∧
    (makeRequestWithRetry (fun _ => resp500) (fun _ => 0) 3 2000 0).result =
      .error ⟨"Error", "HTTP 500: Internal Server Error", none, some 500, none⟩ :=
  ⟨fun mr bd scr js t0 => retryAux_length_le mr bd scr js (mr + 1) 0 t0 none,
   by decide, by decide⟩

/-- Claim C3 (code bug): the spec says a non-429 4xx is terminal after a
single attempt — and so does the code's own comment — and this holds for a
404 whose body does not mention `fetch` (1 attempt, the 404 surfaced by the
handler); but a 404 whose body text contains the substring `fetch` trips the
catch-block check `error.message.includes('fetch')` and is retried like a
network error: 4 attempts under the default policy. -/
theorem client_error_404_with_fetch_body_is_retried :
    (makeRequestWithRetry (fun _ => resp404) (fun _ => 0) 3 2000 0).attempts = 1 ∧
    (makeRequestWithRetry (fun _ => resp404) (fun _ => 0) 3 2000 0).result =
      .error ⟨"Error", "HTTP 404: Not Found", none, some 404, none⟩ ∧
    (handler { baseInput with sessionScript := fun _ => resp404 }).status = 404 ∧
    (makeRequestWithRetry (fun _ => resp404fetch) (fun _ => 0) 3 2000 0).attempts = 4 :=
  ⟨by decide, by decide, by decide, by decide⟩

/-- Claim C9: a POST request (against a configured server) whose body has a
missing amount, or an amount ≤ 0, is answered with HTTP 400
`\x7berror: "Invalid amount provided"\x7d` and zero outbound gateway calls. -/
theorem invalid_amount_rejected_no_gateway_calls (inp : HandlerInput)
    (hm : inp.method = "POST") (hcr : inp.hasAuthToken ∧ inp.hasMerchantId)
    (ha : inp.amount = none ∨ ∃ a, inp.amount = some a ∧ a ≤ 0) :
    handler inp = ⟨400, .invalidAmount, 0⟩ := by
  have hinv : amountInvalid inp.amount = true := by
    rcases ha with h | ⟨a, h, hle⟩
    · simp [amountInvalid, h]
    · simp [amountInvalid, h, hle]
  simp +decide [handler, hm, hcr.1, hcr.2, hinv]

/-- Witness for C9 at a concrete input: a POST with no amount. -/
theorem invalid_amount_rejected_witness :
    handler { baseInput with amount := none } = ⟨400, .invalidAmount, 0⟩ :=
  invalid_amount_rejected_no_gateway_calls _ rfl ⟨rfl, rfl⟩ (Or.inl rfl)

/-- Claim C10: a 2xx session response whose body is not valid JSON is not
retried (the `SyntaxError` fails the catch block's retry test as long as its
message does not contain `fetch`): one attempt, a terminal error with no
`statusCode`, and the handler answers HTTP 500 with the structured
payment-failed JSON body. -/
theorem invalid_json_on_success_not_retried (s : ℕ) (hd : RespHeaders) (b : RespBody)
    (scr : ℕ → FetchOutcome) (js : ℕ → ℚ) (t0 : ℚ)
    (hscr : scr 0 = .response s hd b) (hs : 200 ≤ s) (hs2 : s ≤ 299)
    (hb : b.parsed = none) (hp : includesStr b.parseErrMsg "fetch" = false) :
    (makeRequestWithRetry scr js 3 2000 t0).attempts = 1 ∧
    (makeRequestWithRetry scr js 3 2000 t0).result =
      .error ⟨"SyntaxError", b.parseErrMsg, none, none, none⟩ ∧
    handler { baseInput with
      sessionScript := scr
      jitters := js
      t0 := t0 } =
      ⟨500, .paymentFailed b.parseErrMsg none, 2⟩ := by
  have htr : makeRequestWithRetry scr js 3 2000 t0 =
      ⟨[⟨0, 0, scr 0, none⟩], .error ⟨"SyntaxError", b.parseErrMsg, none, none, none⟩⟩ := by
    simp +decide [makeRequestWithRetry, retryAux, iterTry, hscr, hs, hs2, hb,
      isRetryableError, hp]
  refine ⟨by simp [htr, RetryTrace.attempts], by simp [htr], ?_⟩
  simp +decide [handler, baseInput, amountInvalid, testCloverConnection, respOkProbe,
    okBody, probeData, noHdr, couponCalc, createHostedCheckoutSession, htr,
    RetryTrace.attempts]

/-- Claim C5 counterexample: with the default policy (`maxRetries = 3`,
`maxDelay` cap 60000), three 429 responses carrying `Retry-After: 60`
followed by a success make the controller sleep 60000 three times plus the
three fixed 1000 ms inter-attempt spacings: the total elapsed wait is
183000 ms, exceeding the claimed bound `maxRetries × maxDelay = 180000`. -/
theorem total_wait_exceeds_claimed_bound :
    (makeRequestWithRetry scr429x3 (fun _ => 0) 3 2000 0).totalWait = 183000 ∧
    ¬ ((makeRequestWithRetry scr429x3 (fun _ => 0) 3 2000 0).totalWait ≤ 3 * 60000) := by
  have h : (makeRequestWithRetry scr429x3 (fun _ => 0) 3 2000 0).totalWait = 183000 := by
    norm_num +decide [makeRequestWithRetry, retryAux, iterTry, scr429x3, resp429RA60,
      respOkSess, okBody, sessData, noHdr, rateLimitWait, RetryTrace.totalWait]
  exact ⟨h, by rw [h]; norm_num⟩

/-- Claim C7 counterexample: the same first gateway response (a plain 500)
is retried by the session call's controller (two attempts, ending in the
success of attempt 1) but is terminal for the connectivity probe: the
handler gives up after a single outbound call and answers 500, so the probe
is not governed by the retry policy. -/
theorem probe_failure_not_retried :
    handler { baseInput with probeResp := resp500 } =
      ⟨500, .connectionFailed "HTTP 500: Internal Server Error" (some 500), 1⟩ ∧
    (makeRequestWithRetry scr500then200 (fun _ => 0) 3 2000 0).attempts = 2 ∧
    (makeRequestWithRetry scr500then200 (fun _ => 0) 3 2000 0).result = .ok sessData :=
  ⟨by decide, by decide, by decide⟩

/-- The 429 wait is nonnegative whenever the jitter sample is. -/
theorem rateLimitWait_nonneg (h : RespHeaders) (now : ℚ) (a bd : ℕ) (jit : ℚ)
    (hj : 0 ≤ jit) : 0 ≤ rateLimitWait h now a bd jit := by
  have h60 : (0 : ℚ) ≤ 60000 := by norm_num
  rcases h with ⟨ra, rr⟩
  rcases ra with _ | v
  · rcases rr with _ | r
    · refine le_min (add_nonneg ?_ hj) h60
      positivity
    · exact le_min (le_max_left 0 _) h60
  · rcases v with n | d
    · refine le_min ?_ h60
      positivity
    · exact le_min (le_max_left 0 _) h60

/-- The 429 wait never exceeds the 60000 ms cap. -/
theorem rateLimitWait_le_cap (h : RespHeaders) (now : ℚ) (a bd : ℕ) (jit : ℚ) :
    rateLimitWait h now a bd jit ≤ 60000 :=
  min_le_right _ _

/-- If the try block ends in an in-loop retry, attempts remained
(`attempt ≠ maxRetries`) and the slept wait is either the 5xx backoff
`baseDelay * 2^attempt` or a 429 `rateLimitWait`. -/
theorem iterTry_retryNow_inv (mr bd a : ℕ) (now jit : ℚ) (f : FetchOutcome) (w : ℚ)
    (h : iterTry mr bd a now jit f = .retryNow w) :
    a ≠ mr ∧ (w = (bd : ℚ) * 2 ^ a ∨ ∃ hd, w = rateLimitWait hd now a bd jit) := by
  rcases f with ⟨s, hd, b⟩ | ⟨nm, msg, c⟩
  · simp only [iterTry] at h
    split at h
    · split at h <;> simp at h
    · split at h
      · split at h
        · simp at h
        · rename_i hne
          cases h
          exact ⟨hne, Or.inr ⟨hd, rfl⟩⟩
      · split at h
        · simp at h
        · split at h
          · split at h
            · simp at h
            · rename_i hne
              cases h
              exact ⟨hne, Or.inl rfl⟩
          · simp at h
  · simp only [iterTry] at h
    cases h

/-- Under the default policy (`maxRetries = 3`, `baseDelay = 2000`) and
nonnegative jitter, every sleep of the loop lies in `[0, 60000]` and the
total sleep of a loop started at attempt `a` with `fuel` iterations left is
at most the entry spacing plus `(fuel - 1) × 61000`. -/
theorem retryAux_default_wait_bounds (scr : ℕ → FetchOutcome) (js : ℕ → ℚ)
    (hj : ∀ n, 0 ≤ js n) :
    ∀ (fuel a : ℕ) (t : ℚ) (e : Option JsError), a + fuel = 4 →
      (∀ w ∈ (retryAux 3 2000 scr js a fuel t e).allWaits, 0 ≤ w ∧ w ≤ 60000) ∧
      (retryAux 3 2000 scr js a fuel t e).totalWait ≤
        (if a = 0 then 0 else 1000) + ((fuel - 1 : ℕ) : ℚ) * 61000 := by
  intro fuel
  induction fuel with
  | zero =>
    intro a t e haf
    constructor
    · intro w hw
      simp [retryAux, RetryTrace.allWaits] at hw
    · simp only [retryAux, RetryTrace.totalWait, List.map_nil, List.sum_nil]
      have : (0 : ℚ) ≤ if a = 0 then 0 else 1000 := by split <;> norm_num
      simpa using this
  | succ n ih =>
    intro a t e haf
    have hsp0 : (0 : ℚ) ≤ if a = 0 then 0 else 1000 := by split <;> norm_num
    have hsp60 : (if a = 0 then (0 : ℚ) else 1000) ≤ 60000 := by split <;> norm_num
    simp only [retryAux]
    split
    · -- success: a single iteration with no backoff
      constructor
      · intro w hw
        simp [RetryTrace.allWaits] at hw
        subst hw
        exact ⟨hsp0, hsp60⟩
      · simp only [RetryTrace.totalWait, List.map_cons, List.map_nil, List.sum_cons,
          List.sum_nil, Option.getD_none, Nat.add_sub_cancel]
        have hq : (0 : ℚ) ≤ (n : ℚ) * 61000 := by positivity
        linarith
    · -- in-loop retry (429 or 5xx backoff)
      rename_i w heq
      obtain ⟨hne, hwv⟩ := iterTry_retryNow_inv 3 2000 a _ (js a) (scr a) w heq
      have ha2 : a ≤ 2 := by omega
      have hn1 : 1 ≤ n := by omega
      have hw0 : 0 ≤ w := by
        rcases hwv with rfl | ⟨hd, rfl⟩
        · positivity
        · exact rateLimitWait_nonneg hd _ a 2000 (js a) (hj a)
      have hw60 : w ≤ 60000 := by
        rcases hwv with rfl | ⟨hd, rfl⟩
        · have h2a : (2 : ℚ) ^ a ≤ 2 ^ 2 := by
            exact pow_le_pow_right₀ (by norm_num) ha2
          have : ((2000 : ℕ) : ℚ) * 2 ^ a ≤ 2000 * 2 ^ 2 := by
            push_cast
            nlinarith
          calc ((2000 : ℕ) : ℚ) * 2 ^ a ≤ 2000 * 2 ^ 2 := this
            _ ≤ 60000 := by norm_num
        · exact rateLimitWait_le_cap hd _ a 2000 (js a)
      obtain ⟨ihA, ihT⟩ := ih (a + 1) (t + (if a = 0 then 0 else 1000) + w) e (by omega)
      constructor
      · intro w2 hw2
        simp only [RetryTrace.allWaits, List.flatMap_cons, Option.toList_some,
          List.cons_append, List.nil_append, List.mem_cons] at hw2
        rcases hw2 with rfl | rfl | hmem
        · exact ⟨hsp0, hsp60⟩
        · exact ⟨hw0, hw60⟩
        · exact ihA w2 (by simpa [RetryTrace.allWaits] using hmem)
      · simp only [RetryTrace.totalWait, List.map_cons, List.sum_cons,
          Option.getD_some, Nat.add_sub_cancel]
        have hrest : (List.map (fun l => l.spacing + l.backoffWait.getD 0)
            (retryAux 3 2000 scr js (a + 1) n (t + (if a = 0 then 0 else 1000) + w) e).iters).sum ≤
            1000 + ((n - 1 : ℕ) : ℚ) * 61000 := by
          simpa [RetryTrace.totalWait] using ihT
        have hcast : ((n - 1 : ℕ) : ℚ) = (n : ℚ) - 1 := by
          push_cast [Nat.cast_sub hn1]
          ring
        rw [hcast] at hrest
        linarith
    · -- exception reaching the catch block
      rename_i e2 heq
      split
      · -- retried as a network error: backoff 2000 * 2^a
        rename_i hcond
        have hne : a ≠ 3 := hcond.2
        have ha2 : a ≤ 2 := by omega
        have hn1 : 1 ≤ n := by omega
        have hw0 : (0 : ℚ) ≤ ((2000 : ℕ) : ℚ) * 2 ^ a := by positivity
        have hw60 : ((2000 : ℕ) : ℚ) * 2 ^ a ≤ 60000 := by
          have h2a : (2 : ℚ) ^ a ≤ 2 ^ 2 := pow_le_pow_right₀ (by norm_num) ha2
          have : ((2000 : ℕ) : ℚ) * 2 ^ a ≤ 2000 * 2 ^ 2 := by
            push_cast
            nlinarith
          calc ((2000 : ℕ) : ℚ) * 2 ^ a ≤ 2000 * 2 ^ 2 := this
            _ ≤ 60000 := by norm_num
        obtain ⟨ihA, ihT⟩ := ih (a + 1)
          (t + (if a = 0 then 0 else 1000) + ((2000 : ℕ) : ℚ) * 2 ^ a) (some e2) (by omega)
        constructor
        · intro w2 hw2
          simp only [RetryTrace.allWaits, List.flatMap_cons, Option.toList_some,
            List.cons_append, List.nil_append, List.mem_cons] at hw2
          rcases hw2 with rfl | rfl | hmem
          · exact ⟨hsp0, hsp60⟩
          · exact ⟨hw0, hw60⟩
          · exact ihA w2 (by simpa [RetryTrace.allWaits] using hmem)
        · simp only [RetryTrace.totalWait, List.map_cons, List.sum_cons,
            Option.getD_some, Nat.add_sub_cancel]
          have hrest : (List.map (fun l => l.spacing + l.backoffWait.getD 0)
              (retryAux 3 2000 scr js (a + 1) n
                (t + (if a = 0 then 0 else 1000) + ((2000 : ℕ) : ℚ) * 2 ^ a) (some e2)).iters).sum ≤
              1000 + ((n - 1 : ℕ) : ℚ) * 61000 := by
            simpa [RetryTrace.totalWait] using ihT
          have hcast : ((n - 1 : ℕ) : ℚ) = (n : ℚ) - 1 := by
            push_cast [Nat.cast_sub hn1]
            ring
          rw [hcast] at hrest
          linarith
      · -- terminal rethrow
        constructor
        · intro w hw
          simp [RetryTrace.allWaits] at hw
          subst hw
          exact ⟨hsp0, hsp60⟩
        · simp only [RetryTrace.totalWait, List.map_cons, List.map_nil, List.sum_cons,
            List.sum_nil, Option.getD_none, Nat.add_sub_cancel]
          have hq : (0 : ℚ) ≤ (n : ℚ) * 61000 := by positivity
          linarith

/-- A retried 5xx response at attempt `a` always sleeps exactly
`baseDelay * 2^a` (a 5xx never takes the 429 wait path). -/
theorem iterTry_5xx_retryNow (mr bd a : ℕ) (now jit : ℚ) (s : ℕ) (hd : RespHeaders)
    (b : RespBody) (w : ℚ) (hs : 500 ≤ s)
    (h : iterTry mr bd a now jit (.response s hd b) = .retryNow w) :
    w = (bd : ℚ) * 2 ^ a := by
  have h1 : ¬ (200 ≤ s ∧ s ≤ 299) := by omega
  have h2 : ¬ (s = 429) := by omega
  have h3 : ¬ (400 ≤ s ∧ s < 500) := by omega
  simp only [iterTry, if_neg h1, if_neg h2, if_neg h3, if_pos hs] at h
  split at h
  · cases h
  · injection h with h
    exact h.symm

/-- Every logged iteration of the loop sleeps the fixed 1000 ms spacing
exactly when its attempt index is positive, and when it slept a backoff
after a 5xx response or after a transport-level failure, that backoff is
`baseDelay * 2^attempt`. -/
theorem retryAux_iter_shape (mr bd : ℕ) (scr : ℕ → FetchOutcome) (js : ℕ → ℚ) :
    ∀ (fuel a : ℕ) (t : ℚ) (e : Option JsError),
      ∀ l ∈ (retryAux mr bd scr js a fuel t e).iters,
        (l.spacing = if l.attempt = 0 then 0 else 1000) ∧
        (∀ s hd b, l.resp = FetchOutcome.response s hd b → 500 ≤ s →
          ∀ w, l.backoffWait = some w → w = (bd : ℚ) * 2 ^ l.attempt) ∧
        (∀ nm msg c, l.resp = FetchOutcome.networkError nm msg c →
          ∀ w, l.backoffWait = some w → w = (bd : ℚ) * 2 ^ l.attempt) := by
  intro fuel
  induction fuel with
  | zero =>
    intro a t e l hl
    simp [retryAux] at hl
  | succ n ih =>
    intro a t e l hl
    simp only [retryAux] at hl
    split at hl
    · -- success: single entry, no backoff
      rename_i d heq
      simp only [List.mem_singleton] at hl
      subst hl
      exact ⟨rfl, fun s hd b hresp hs w hw => Option.noConfusion hw,
        fun nm msg c hresp w hw => Option.noConfusion hw⟩
    · -- in-loop retry
      rename_i w heq
      rcases List.mem_cons.1 hl with rfl | hmem
      · refine ⟨rfl, ?_, ?_⟩
        · intro s hd b hresp hs w2 hw2
          dsimp only at hresp hw2 ⊢
          injection hw2 with hw2
          subst hw2
          rw [hresp] at heq
          exact iterTry_5xx_retryNow mr bd a _ (js a) s hd b w hs heq
        · intro nm msg c hresp w2 hw2
          dsimp only at hresp
          rw [hresp] at heq
          simp only [iterTry] at heq
          cases heq
      · exact ih (a + 1) _ _ l hmem
    · -- exception reaching the catch block
      rename_i e2 heq
      split at hl
      · rcases List.mem_cons.1 hl with rfl | hmem
        · refine ⟨rfl, ?_, ?_⟩
          · intro s hd b hresp hs w hw
            dsimp only at hw ⊢
            injection hw with hw
            exact hw.symm
          · intro nm msg c hresp w hw
            dsimp only at hw ⊢
            injection hw with hw
            exact hw.symm
        · exact ih (a + 1) _ _ l hmem
      · simp only [List.mem_singleton] at hl
        subst hl
        exact ⟨rfl, fun s hd b hresp hs w hw => Option.noConfusion hw,
          fun nm msg c hresp w hw => Option.noConfusion hw⟩

/-- Claim C4: in every invocation of the retry controller, the iteration
for attempt index `a > 0` sleeps the fixed 1000 ms inter-attempt spacing
(recorded separately from, and in addition to, any backoff already slept),
the iteration for attempt 0 sleeps no spacing, and the backoff slept after
a retried HTTP 5xx response or transport-level network failure at attempt
`a` equals `baseDelay * 2^a`. -/
theorem inter_attempt_spacing_and_backoff (mr bd : ℕ) (scr : ℕ → FetchOutcome)
    (js : ℕ → ℚ) (t0 : ℚ) :
    ∀ l ∈ (makeRequestWithRetry scr js mr bd t0).iters,
      (l.spacing = if l.attempt = 0 then 0 else 1000) ∧
      (∀ s hd b, l.resp = FetchOutcome.response s hd b → 500 ≤ s →
        ∀ w, l.backoffWait = some w → w = (bd : ℚ) * 2 ^ l.attempt) ∧
      (∀ nm msg c, l.resp = FetchOutcome.networkError nm msg c →
        ∀ w, l.backoffWait = some w → w = (bd : ℚ) * 2 ^ l.attempt) :=
  retryAux_iter_shape mr bd scr js (mr + 1) 0 t0 none

/-- Witness for C4 at a concrete input: with a network failure on attempt 0
followed by a success, the first iteration's backoff is `2000 * 2^0` and the
second iteration slept the 1000 ms spacing. -/
theorem inter_attempt_spacing_witness :
    ((⟨0, 0, netErr, some 2000⟩ : IterLog).backoffWait = some 2000 →
      (2000 : ℚ) = ((2000 : ℕ) : ℚ) * 2 ^ (0 : ℕ)) ∧
    (⟨1, 1000, respOkSess, none⟩ : IterLog).spacing = 1000 := by
  have hm0 : (⟨0, 0, netErr, some 2000⟩ : IterLog) ∈
      (makeRequestWithRetry scrNetThenOk (fun _ => 0) 3 2000 0).iters := by
    have : makeRequestWithRetry scrNetThenOk (fun _ => 0) 3 2000 0 =
        ⟨[⟨0, 0, netErr, some 2000⟩, ⟨1, 1000, respOkSess, none⟩], .ok sessData⟩ := by
      norm_num +decide [makeRequestWithRetry, retryAux, iterTry, scrNetThenOk, netErr,
        respOkSess, okBody, sessData, noHdr, isRetryableError]
    rw [this]
    simp
  have hm1 : (⟨1, 1000, respOkSess, none⟩ : IterLog) ∈
      (makeRequestWithRetry scrNetThenOk (fun _ => 0) 3 2000 0).iters := by
    have : makeRequestWithRetry scrNetThenOk (fun _ => 0) 3 2000 0 =
        ⟨[⟨0, 0, netErr, some 2000⟩, ⟨1, 1000, respOkSess, none⟩], .ok sessData⟩ := by
      norm_num +decide [makeRequestWithRetry, retryAux, iterTry, scrNetThenOk, netErr,
        respOkSess, okBody, sessData, noHdr, isRetryableError]
    rw [this]
    simp
  have h0 := inter_attempt_spacing_and_backoff 3 2000 scrNetThenOk (fun _ => 0) 0 _ hm0
  have h1 := inter_attempt_spacing_and_backoff 3 2000 scrNetThenOk (fun _ => 0) 0 _ hm1
  exact ⟨fun hw => h0.2.2 "TypeError" "fetch failed" none rfl 2000 hw,
    h1.1.trans (by norm_num)⟩

/-- Claim C5 (amended): under the default policy every individual sleep of
one invocation lies in `[0, 60000]` (the stated per-wait invariant holds),
but the total elapsed wait is only bounded by
`maxRetries × (maxDelay + 1000) = 183000`: each retried attempt also sleeps
the fixed 1000 ms inter-attempt spacing on top of its backoff, so the
claimed `maxRetries × maxDelay` total is exceeded (see the counterexample). -/
theorem wait_bounds_amended (scr : ℕ → FetchOutcome) (js : ℕ → ℚ) (t0 : ℚ)
    (hj : ∀ n, 0 ≤ js n) :
    (∀ w ∈ (makeRequestWithRetry scr js 3 2000 t0).allWaits, 0 ≤ w ∧ w ≤ 60000) ∧
    (makeRequestWithRetry scr js 3 2000 t0).totalWait ≤ 3 * (60000 + 1000) := by
  have h := retryAux_default_wait_bounds scr js hj 4 0 t0 none (by norm_num)
  refine ⟨h.1, le_trans h.2 (by norm_num)⟩

/-- Witness for C5 (amended) at a concrete input: the script of the
counterexample stays within the amended total bound. -/
theorem wait_bounds_amended_witness :
    (makeRequestWithRetry scr429x3 (fun _ => 0) 3 2000 0).totalWait ≤ 3 * (60000 + 1000) :=
  (wait_bounds_amended scr429x3 (fun _ => 0) 0 (fun _ => le_refl 0)).2

/-- Modelled from the spec: the schedule produced by the queue ignores the
tasks' resolve/reject outcomes. -/
theorem runQueueAux_sched_indep (minI : ℚ) :
    ∀ (tasks : List QueueTask) (i : ℕ) (now : ℚ) (li : Option ℚ),
      (runQueueAux minI tasks i now li).map (fun r => (r.index, r.start, r.finish)) =
        (runQueueAux minI (tasks.map fun tk => ⟨tk.duration, true⟩) i now li).map
          (fun r => (r.index, r.start, r.finish)) := by
  intro tasks
  induction tasks with
  | nil => intro i now li; rfl
  | cons tk rest ih =>
    intro i now li
    simp only [List.map_cons, runQueueAux, List.map, ih]

/-- Modelled from the spec: the queue runs tasks in enqueue order — the
produced run indices are `0, 1, 2, …`. -/
theorem runQueueAux_map_index (minI : ℚ) :
    ∀ (tasks : List QueueTask) (i : ℕ) (now : ℚ) (li : Option ℚ),
      (runQueueAux minI tasks i now li).map QueueRun.index =
        List.range' i tasks.length := by
  intro tasks
  induction tasks with
  | nil => intro i now li; rfl
  | cons tk rest ih =>
    intro i now li
    simp only [runQueueAux, List.map_cons, List.length_cons, List.range'_succ, ih]

/-- Modelled from the spec: consecutive runs do not overlap (capacity 1),
their starts are at least `minInterval` apart, and they settle in order. -/
theorem runQueueAux_chain (minI : ℚ) :
    ∀ (tasks : List QueueTask) (i : ℕ) (now : ℚ) (li : Option ℚ),
      (∀ tk ∈ tasks, 0 ≤ tk.duration) →
      List.Chain' (fun r1 r2 => r1.finish ≤ r2.start ∧ r1.start + minI ≤ r2.start ∧
        r1.finish ≤ r2.finish) (runQueueAux minI tasks i now li) := by
  intro tasks
  induction tasks with
  | nil => intro i now li _; exact List.chain'_nil
  | cons tk rest ih =>
    intro i now li hdur
    have hrest : ∀ tk2 ∈ rest, 0 ≤ tk2.duration := fun tk2 h2 => hdur tk2 (by simp [h2])
    obtain ⟨st, hst⟩ : ∃ st, runQueueAux minI (tk :: rest) i now li =
        ⟨i, st, st + tk.duration, tk.ok⟩ ::
          runQueueAux minI rest (i + 1) (st + tk.duration) (some st) :=
      ⟨match li with
        | none => now
        | some li2 => max now (li2 + minI), rfl⟩
    rw [hst]
    refine List.chain'_cons'.2 ⟨?_, ih (i + 1) _ _ hrest⟩
    intro r2 hr2
    cases rest with
    | nil => simp [runQueueAux] at hr2
    | cons tk2 rest2 =>
      simp only [runQueueAux, List.head?_cons, Option.mem_def, Option.some_inj] at hr2
      subst hr2
      have h2 : 0 ≤ tk2.duration := hrest tk2 (by simp)
      refine ⟨le_max_left _ _, le_max_right _ _, ?_⟩
      dsimp only
      calc st + tk.duration ≤ max (st + tk.duration) (st + minI) := le_max_left _ _
        _ ≤ max (st + tk.duration) (st + minI) + tk2.duration := by linarith

/-- Claim C6 (modelled from the spec, the queue is not part of `src/`):
enqueued tasks run serialized with capacity 1 — consecutive runs never
overlap and their starts are spaced at least `minInterval` apart — they
start and settle strictly in enqueue (FIFO) order, and a rejected task does
not block or delay subsequent tasks: the schedule is the same as if every
task resolved. -/
theorem queue_fifo_spacing_serialization (minInterval t0 : ℚ) (tasks : List QueueTask)
    (hdur : ∀ tk ∈ tasks, 0 ≤ tk.duration) :
    ((runQueue minInterval t0 tasks).map QueueRun.index = List.range tasks.length) ∧
    List.Chain' (fun r1 r2 => r1.finish ≤ r2.start ∧ r1.start + minInterval ≤ r2.start ∧
      r1.finish ≤ r2.finish) (runQueue minInterval t0 tasks) ∧
    ((runQueue minInterval t0 tasks).map (fun r => (r.index, r.start, r.finish)) =
      (runQueue minInterval t0 (tasks.map fun tk => ⟨tk.duration, true⟩)).map
        (fun r => (r.index, r.start, r.finish))) :=
  ⟨by rw [runQueue, runQueueAux_map_index, List.range_eq_range'],
   runQueueAux_chain minInterval tasks 0 t0 none hdur,
   runQueueAux_sched_indep minInterval tasks 0 t0 none⟩

/-- Witness for C6 at a concrete input: the spec's three-task scenario with
`minInterval` 1000 and a rejecting middle task. -/
theorem queue_fifo_spacing_witness :
    (runQueue 1000 0 [⟨5, true⟩, ⟨7, false⟩, ⟨2, true⟩]).map QueueRun.index =
      List.range 3 :=
  (queue_fifo_spacing_serialization 1000 0 [⟨5, true⟩, ⟨7, false⟩, ⟨2, true⟩]
    (by norm_num)).1

/-- Claim C8: for every amount > 0 against a succeeding gateway: with no
coupon, or with a coupon code outside \x7bSAVE10, SAVE20, SAVE50\x7d (the whole
table — every entry of it is active), the discount is 0 and the final
amount equals the amount; with one of the three valid codes of percentage
value `v`, the discount is `Math.round(amount * v / 100)`, the final amount
is `max 0 (amount - discount)`, and the 200 response reports exactly these
values with `couponApplied` set to the coupon code. -/
theorem coupon_discount_and_response (a : ℚ) (ha : 0 < a) (c : Option String) :
    (handler (goodInput a c)).status = 200 ∧
    ((c = none ∨ ∀ s, c = some s → s ∉ (["SAVE10", "SAVE20", "SAVE50"] : List String)) →
      handler (goodInput a c) =
        ⟨200, .success "https://checkout.example/pay" a 0 a none "sess123", 2⟩) ∧
    (∀ s v, c = some s →
      (s, v) ∈ ([("SAVE10", (10 : ℚ)), ("SAVE20", 20), ("SAVE50", 50)] :
        List (String × ℚ)) →
      handler (goodInput a c) =
        ⟨200, .success "https://checkout.example/pay" a (jsRound (a * v / 100))
          (max 0 (a - jsRound (a * v / 100))) (some s) "sess123", 2⟩) := by
  have hA : amountInvalid (some a) = false := by
    have h0 : ¬ (a ≤ 0) := not_le.2 ha
    simp [amountInvalid, h0]
  have hmain : handler (goodInput a c) =
      ⟨200, .success "https://checkout.example/pay" a (couponCalc a c).1
        (max 0 (a - (couponCalc a c).1)) (Option.map Coupon.code (couponCalc a c).2)
        "sess123", 2⟩ := by
    simp +decide [handler, goodInput, baseInput, hA, testCloverConnection, respOkProbe,
      okBody, probeData, sessData, noHdr, createHostedCheckoutSession,
      makeRequestWithRetry, retryAux, iterTry, RetryTrace.attempts, respOkSess]
  refine ⟨by rw [hmain], ?_, ?_⟩
  · intro hc
    have hcc : couponCalc a c = (0, none) := by
      rcases c with _ | s
      · rfl
      · have hs : s ∉ (["SAVE10", "SAVE20", "SAVE50"] : List String) := by
          rcases hc with hc | hc
          · cases hc
          · exact hc s rfl
        have hs1 : ¬ (s = "SAVE10") := fun h => hs (by simp [h])
        have hs2 : ¬ (s = "SAVE20") := fun h => hs (by simp [h])
        have hs3 : ¬ (s = "SAVE50") := fun h => hs (by simp [h])
        by_cases hse : s = ""
        · simp [couponCalc, hse]
        · have hf : coupons.find? (fun k => k.code == s && k.active) = none := by
            rw [List.find?_eq_none]
            intro x hx
            simp only [coupons, List.mem_cons, List.not_mem_nil, or_false] at hx
            rcases hx with rfl | rfl | rfl <;>
              simp [Ne.symm hs1, Ne.symm hs2, Ne.symm hs3]
          simp [couponCalc, hse, hf]
    rw [hmain, hcc]
    simp [max_eq_right ha.le]
  · intro s v hcs hmem
    subst hcs
    simp only [List.mem_cons, List.not_mem_nil, or_false, Prod.mk.injEq] at hmem
    rcases hmem with ⟨rfl, rfl⟩ | ⟨rfl, rfl⟩ | ⟨rfl, rfl⟩
    · have hf : coupons.find? (fun k => k.code == "SAVE10" && k.active) =
          some ⟨"SAVE10", 10, true⟩ := rfl
      rw [hmain]
      simp +decide [couponCalc, hf]
    · have hf : coupons.find? (fun k => k.code == "SAVE20" && k.active) =
          some ⟨"SAVE20", 20, true⟩ := rfl
      rw [hmain]
      simp +decide [couponCalc, hf]
    · have hf : coupons.find? (fun k => k.code == "SAVE50" && k.active) =
          some ⟨"SAVE50", 50, true⟩ := rfl
      rw [hmain]
      simp +decide [couponCalc, hf]

/-- Witness for C8 at the spec's end-to-end scenario: amount 100 with
SAVE20 yields discount 20, final amount 80, couponApplied SAVE20 in the
200 response. -/
theorem coupon_discount_witness :
    handler (goodInput 100 (some "SAVE20")) =
      ⟨200, .success "https://checkout.example/pay" 100 20 80 (some "SAVE20") "sess123", 2⟩ := by
  have h := (coupon_discount_and_response 100 (by norm_num) (some "SAVE20")).2.2
    "SAVE20" 20 rfl (by simp +decide)
  rw [h]
  norm_num [jsRound]

/-- Claim C2: on a 429 with retries remaining at attempt `a`, the wait the
loop sleeps before the next attempt follows exactly this precedence: a
numeric `Retry-After` header gives its value in seconds × 1000; a date
`Retry-After` gives its distance from now floored at 0; else a present
`X-RateLimit-Reset` gives Unix-seconds × 1000 minus now floored at 0; else
`baseDelay * 3^a` plus the attempt's jitter sample (drawn from [0, 2000));
in every case the result is clamped to at most 60000 ms. Here "now" is the
clock after the inter-attempt spacing, and the default policy
(`maxRetries = 3`, `baseDelay = 2000`) is in force. -/
theorem rate_limit_wait_precedence (hd : RespHeaders) (b : RespBody)
    (scr : ℕ → FetchOutcome) (js : ℕ → ℚ) (a fuel : ℕ) (t : ℚ) (e : Option JsError)
    (ha : a < 3) (hscr : scr a = .response 429 hd b)
    (_hj0 : 0 ≤ js a) (_hj2 : js a < 2000) :
    ∃ rest,
      (retryAux 3 2000 scr js a (fuel + 1) t e).iters =
        ⟨a, (if a = 0 then 0 else 1000), scr a,
          some (min
            (match hd.retryAfter, hd.rateLimitReset with
             | some (.num n), _ => (n : ℚ) * 1000
             | some (.date d), _ => max 0 (d - (t + if a = 0 then 0 else 1000))
             | none, some r => max 0 ((r : ℚ) * 1000 - (t + if a = 0 then 0 else 1000))
             | none, none => ((2000 : ℕ) : ℚ) * 3 ^ a + js a)
            60000)⟩ :: rest := by
  have hne : a ≠ 3 := by omega
  have hit : iterTry 3 2000 a (t + if a = 0 then 0 else 1000) (js a) (scr a) =
      .retryNow (rateLimitWait hd (t + if a = 0 then 0 else 1000) a 2000 (js a)) := by
    rw [hscr]
    simp +decide [iterTry, hne]
  have hrw : rateLimitWait hd (t + if a = 0 then 0 else 1000) a 2000 (js a) =
      min
        (match hd.retryAfter, hd.rateLimitReset with
         | some (.num n), _ => (n : ℚ) * 1000
         | some (.date d), _ => max 0 (d - (t + if a = 0 then 0 else 1000))
         | none, some r => max 0 ((r : ℚ) * 1000 - (t + if a = 0 then 0 else 1000))
         | none, none => ((2000 : ℕ) : ℚ) * 3 ^ a + js a)
        60000 := by
    rcases hd with ⟨ra, rr⟩
    rcases ra with _ | v
    · rcases rr with _ | r <;> rfl
    · rcases v with n | d <;> rfl
  refine ⟨(retryAux 3 2000 scr js (a + 1) fuel
      (t + (if a = 0 then 0 else 1000) +
        rateLimitWait hd (t + if a = 0 then 0 else 1000) a 2000 (js a)) e).iters, ?_⟩
  simp only [retryAux, hit]
  rw [hrw]

/-- Witness for C2 at a concrete input: `Retry-After: 5` at attempt 1 makes
the loop sleep exactly 5000 ms. -/
theorem rate_limit_wait_witness :
    ∃ rest, (retryAux 3 2000 (fun _ => resp429RA5) (fun _ => 0) 1 3 0 none).iters =
      ⟨1, 1000, resp429RA5, some 5000⟩ :: rest := by
  obtain ⟨rest, hr⟩ := rate_limit_wait_precedence ⟨some (.num 5), none⟩
    ⟨"rate limited", none, ""⟩ (fun _ => resp429RA5) (fun _ => 0) 1 2 0 none
    (by norm_num) rfl le_rfl (by norm_num)
  refine ⟨rest, ?_⟩
  rw [hr]
  norm_num

/-- Claim C7 (amended): only the checkout-session POST goes through the
retry controller. The probe issues exactly one `fetch` whatever the
outcome — any non-2xx status or transport failure is surfaced immediately
as an HTTP 500 connection failure after one outbound call — while the
handler's total outbound call count is 1 (the probe) plus the controller's
attempt count for the session script. -/
theorem probe_single_fetch_session_via_controller :
    (∀ s hd b, ¬ (200 ≤ s ∧ s ≤ 299) →
      handler { baseInput with probeResp := .response s hd b } =
        ⟨500, .connectionFailed (httpErrMsg s b.text) (some s), 1⟩) ∧
    (∀ nm msg c,
      handler { baseInput with probeResp := .networkError nm msg c } =
        ⟨500, .connectionFailed msg none, 1⟩) ∧
    (∀ scr js,
      (handler { baseInput with
        sessionScript := scr
        jitters := js }).gatewayCalls =
        1 + (makeRequestWithRetry scr js 3 2000 0).attempts) := by
  refine ⟨?_, ?_, ?_⟩
  · intro s hd b hns
    simp +decide [handler, baseInput, amountInvalid, testCloverConnection, hns]
  · intro nm msg c
    simp +decide [handler, baseInput, amountInvalid, testCloverConnection]
  · intro scr js
    rcases hc : createHostedCheckoutSession scr js 0 with ⟨r, n⟩
    have hn : n = (makeRequestWithRetry scr js 3 2000 0).attempts := by
      have h2 := congrArg Prod.snd hc
      simpa [createHostedCheckoutSession] using h2.symm
    cases r <;>
      simp +decide [handler, baseInput, amountInvalid, testCloverConnection, respOkProbe,
        okBody, probeData, noHdr, hc, hn]

/-- Witness for C7 (amended) at a concrete input: a 503 on the probe is
answered after a single outbound call, and an all-500 session script costs
1 + 4 outbound calls. -/
theorem probe_single_fetch_witness :
    handler { baseInput with probeResp := .response 503 noHdr ⟨"Service Unavailable", none, ""⟩ } =
      ⟨500, .connectionFailed (httpErrMsg 503 "Service Unavailable") (some 503), 1⟩ ∧
    (handler { baseInput with
      sessionScript := fun _ => resp500
      jitters := fun _ => 0 }).gatewayCalls =
      1 + (makeRequestWithRetry (fun _ => resp500) (fun _ => 0) 3 2000 0).attempts :=
  ⟨probe_single_fetch_session_via_controller.1 503 noHdr ⟨"Service Unavailable", none, ""⟩
      (by norm_num),
   probe_single_fetch_session_via_controller.2.2 (fun _ => resp500) (fun _ => 0)⟩

/-- Witness for C10 at a concrete input: a 200 response carrying an HTML
body, with the usual JSON-parser message. -/
theorem invalid_json_on_success_witness :
    (makeRequestWithRetry (fun _ => .response 200 noHdr badJsonBody) (fun _ => 0) 3 2000 0).attempts = 1 ∧
    (makeRequestWithRetry (fun _ => .response 200 noHdr badJsonBody) (fun _ => 0) 3 2000 0).result =
      .error ⟨"SyntaxError", "Unexpected end of JSON input", none, none, none⟩ ∧
    handler { baseInput with
      sessionScript := fun _ => .response 200 noHdr badJsonBody
      jitters := fun _ => 0
      t0 := 0 } =
      ⟨500, .paymentFailed "Unexpected end of JSON input" none, 2⟩ :=
  invalid_json_on_success_not_retried 200 noHdr badJsonBody _ _ 0 rfl (by norm_num)
    (by norm_num) rfl (by decide)

end CloverCheckout
